import Mathlib

/-!
Shallow embedding of `src/index.js` (MVC-TodoList): a single-page todo-list
client made of an API layer (`APIs`), an observable state container
(`Model.state`), a presentation layer (`View`) and a coordinator
(`Controller`).

Modelling conventions:
* JavaScript promises resolving network calls are embedded by passing the
  resolved value (or the transport outcome) as an explicit argument to the
  continuation; rejections are `Except.error` values of type `JsError`.
* The browser `fetch` API (an external collaborator, not repository code) is
  modelled per its standard semantics: it resolves with a response object for
  every HTTP response, whatever the status code, and rejects only on transport
  failure.  `res.json()` rejects when the body is not valid JSON.
* The DOM is embedded structurally: the list container's `innerHTML` string is
  abstracted into an ordered list of `Block` values, one per rendered
  `<div id=...>` element.
-/

/-- A todo item `\x7b id, content \x7d` as produced by the server. -/
structure Todo where
  id : String
  content : String
deriving DecidableEq

/-- A JSON value, used for raw response bodies. -/
inductive Json where
  | null : Json
  | bool : Bool → Json
  | num : Int → Json
  | str : String → Json
  | arr : List Json → Json
  | obj : List (String × Json) → Json

/-- Failure modes of the embedded JavaScript runtime: a transport failure
rejecting `fetch`, a malformed body rejecting `res.json()`, and the TypeError
raised when calling a member that is `undefined`. -/
inductive JsError where
  | networkError : JsError
  | parseError : JsError
  | typeError : JsError
deriving DecidableEq

/-- Outcome of one HTTP exchange, supplied to the model as the behaviour of the
external server: either the transport fails, or a response with some status
arrives whose body is `some j` when it is valid JSON and `none` otherwise. -/
inductive FetchOutcome where
  | networkError : FetchOutcome
  | response (status : Nat) (body : Option Json) : FetchOutcome

/-- Request payload of `createTodo`: the object `\x7b content: inputValue \x7d`
built by the add handler (no id). -/
structure CreatePayload where
  content : String
deriving DecidableEq

namespace APIs

/-- Model of the browser `fetch` call (external API): resolves to the response
(status and body) for every HTTP response, regardless of status; rejects only
when the transport fails. -/
def fetch (outcome : FetchOutcome) : Except JsError (Nat × Option Json) :=
  match outcome with
  | .networkError => .error .networkError
  | .response status body => .ok (status, body)

/-- Model of `res.json()` (external API): resolves to the parsed body, rejects
when the body is not valid JSON.  The status is not consulted. -/
def resJson (res : Nat × Option Json) : Except JsError Json :=
  match res.2 with
  | some j => .ok j
  | none => .error .parseError

/-- Embeds `getTodos = () => fetch(baseURL).then((res) => res.json())`. -/
def getTodos (outcome : FetchOutcome) : Except JsError Json :=
  (fetch outcome).bind resJson

/-- Embeds `createTodo = (newTodo) => fetch(baseURL, \x7bmethod: "POST", ...,
body: JSON.stringify(newTodo)\x7d).then((res) => res.json())`.  The request
payload `newTodo` is carried so call sites can be checked; the response
computation does not depend on it. -/
def createTodo (newTodo : CreatePayload) (outcome : FetchOutcome) :
    Except JsError Json :=
  (fetch outcome).bind resJson

/-- Embeds `deleteTodo = (id) => fetch(baseURL/id, \x7bmethod: "DELETE",
...\x7d).then((res) => res.json())`. -/
def deleteTodo (id : String) (outcome : FetchOutcome) : Except JsError Json :=
  (fetch outcome).bind resJson

/-- Spec-side predicate (not from the source): a 2xx HTTP success status. -/
def isSuccessStatus (status : Nat) : Prop :=
  200 ≤ status ∧ status < 300

instance (status : Nat) : Decidable (isSuccessStatus status) :=
  inferInstanceAs (Decidable (200 ≤ status ∧ status < 300))

end APIs

namespace Model

/-- Embeds the private fields of `class state`: `#todos` holds the current
todo list and `#onChange` the registered change callback.  A declared but
never-assigned private field is `undefined`, embedded as `none`.  Callbacks
are opaque values of a parameter type `κ`; invoking one is recorded as an
event `(cb, observed)` where `observed` is the value `state.todos` returns at
the moment of the call (the only state a callback can read). -/
structure state (κ : Type) where
  todos : List Todo
  onChange : Option κ

/-- Embeds `constructor() \x7b this.#todos = []; \x7d`: the todo list starts
empty and `#onChange` is left `undefined`. -/
def state.new {κ : Type} : state κ :=
  { todos := [], onChange := none }

/-- Embeds `subscribe(cb) \x7b this.#onChange = cb; \x7d`. -/
def state.subscribe {κ : Type} (s : state κ) (cb : κ) : state κ :=
  { s with onChange := some cb }

/-- Embeds `set todos(newTodos) \x7b this.#todos = newTodos;
this.#onChange(); \x7d`.  The field is replaced first; then the callback is
invoked.  When `#onChange` is `undefined`, calling it raises a TypeError, but
the field assignment has already happened, so the updated container is
returned alongside the error.  On success the single invocation event records
the callback and the list it observes via the getter, which at that point is
the freshly assigned one. -/
def state.setTodos {κ : Type} (s : state κ) (newTodos : List Todo) :
    state κ × Except JsError (List (κ × List Todo)) :=
  let s' := { s with todos := newTodos }
  match s'.onChange with
  | none => (s', .error .typeError)
  | some cb => (s', .ok [(cb, s'.todos)])

/-- Runs a sequence of assignments to `state.todos`, accumulating the callback
invocation events in order; a thrown TypeError aborts the remainder of the
sequence, as an uncaught exception would. -/
def runAssignments {κ : Type} (s : state κ) :
    List (List Todo) → state κ × Except JsError (List (κ × List Todo))
  | [] => (s, .ok [])
  | l :: ls =>
    match state.setTodos s l with
    | (s', .error e) => (s', .error e)
    | (s', .ok evs) =>
      match runAssignments s' ls with
      | (s'', .error e) => (s'', .error e)
      | (s'', .ok evs2) => (s'', .ok (evs ++ evs2))

end Model

namespace View

/-- One rendered item block, abstracting the template
`<div id=$id> $content <button class="todo_delete-btn">delete</button> </div>`:
the block's element identifier, its text content, and how many delete buttons
it embeds. -/
structure Block where
  elemId : String
  text : String
  deleteControls : Nat
deriving DecidableEq

/-- The block built for one todo by the template literal inside
`renderTodos`. -/
def todoItemTemp (todo : Todo) : Block :=
  { elemId := todo.id, text := todo.content, deleteControls := 1 }

/-- Embeds `renderTodos`: starting from the empty string, one block per todo is
appended in list order, and the result replaces the container contents
(`todolistEl.innerHTML = todosTemp`). -/
def renderTodos (todos : List Todo) : List Block :=
  todos.map todoItemTemp

/-- The view's mutable DOM surface: the text of `#todo_input` and the rendered
contents of `#todo_list-container`. -/
structure ViewState where
  inputValue : String
  container : List Block
deriving DecidableEq

/-- Embeds `getInputValue = () => inputEl.value`. -/
def getInputValue (v : ViewState) : String :=
  v.inputValue

/-- Embeds `clearInput = () => \x7b inputEl.value = ""; \x7d`. -/
def clearInput (v : ViewState) : ViewState :=
  { v with inputValue := "" }

end View

namespace Controller

/-- A remote call issued through the API layer, recorded with its argument. -/
inductive ApiCall where
  | getTodosCall : ApiCall
  | createTodoCall (payload : CreatePayload) : ApiCall
  | deleteTodoCall (id : String) : ApiCall
deriving DecidableEq

/-- The clicked DOM element as inspected by the delegated listener: its
`className` and the `id` attribute of its parent element. -/
structure DomElement where
  className : String
  parentId : String
deriving DecidableEq

/-- The controller's world: the single `state` instance (`new model.state()`)
and the view's DOM surface.  The only callback ever subscribed is the render
closure from `init`, so the callback type is `Unit`. -/
structure App where
  st : Model.state Unit
  view : View.ViewState

/-- Interprets recorded callback invocations: the subscribed callback is
`() => view.renderTodos(state.todos)`, so each event re-renders the container
from the todo list the callback observed. -/
def applyEvents (v : View.ViewState) (events : List (Unit × List Todo)) :
    View.ViewState :=
  events.foldl (fun v e => { v with container := View.renderTodos e.2 }) v

/-- An assignment `state.todos = newTodos` as seen from the application: the
container state is updated and, on success, every callback invocation runs the
render closure. -/
def setTodosApp (a : App) (newTodos : List Todo) :
    App × Except JsError Unit :=
  match Model.state.setTodos a.st newTodos with
  | (st', .ok evs) => ({ st := st', view := applyEvents a.view evs }, .ok ())
  | (st', .error e) => ({ st := st', view := a.view }, .error e)

/-- Embeds the add-button click handler from `setUpAddHandler`, with the item
the `createTodo` promise resolves to passed explicitly.  Returns the remote
call issued, the application state after the resolution handler ran, and
whether that handler threw.  The handler reads the input value, builds
`\x7b content: inputValue \x7d`, posts it, and on resolution appends the
returned item to the current todos (`[...state.todos, data]`) and then clears
the input field. -/
def addClick (a : App) (resolvedItem : Todo) :
    ApiCall × App × Except JsError Unit :=
  let inputValue := View.getInputValue a.view
  let newTodo : CreatePayload := { content := inputValue }
  let call := ApiCall.createTodoCall newTodo
  match setTodosApp a (a.st.todos ++ [resolvedItem]) with
  | (a', .ok _) => (call, { a' with view := View.clearInput a'.view }, .ok ())
  | (a', .error e) => (call, a', .error e)

/-- Embeds the delegated click listener on `todolistEl`, with the promise
resolutions passed explicitly: `deleteConfirmation` is what `deleteTodo`
resolves to (discarded by the `.then(() => ...)` continuation) and `refetched`
is what the follow-up `getTodos` resolves to.  If the clicked element's class
is the delete-button class, the handler reads the parent element's id, deletes
that item remotely, re-fetches the whole list and assigns it to the state;
otherwise nothing happens.  Returns the remote calls issued in order, the
resulting application state, and whether the chain threw. -/
def todolistClick (a : App) (element : DomElement)
    (deleteConfirmation : Json) (refetched : List Todo) :
    List ApiCall × App × Except JsError Unit :=
  if element.className = "todo_delete-btn" then
    let id := element.parentId
    match setTodosApp a refetched with
    | (a', r) => ([ApiCall.deleteTodoCall id, ApiCall.getTodosCall], a', r)
  else
    ([], a, .ok ())

/-- Embeds `init`, with the list the initial `getTodos` resolves to passed
explicitly: subscribe the render closure to the state, then assign the fetched
list to `state.todos` (triggering the initial render).  `setUpAddHandler`
merely attaches the listener embedded here by `addClick` and changes no
state. -/
def init (a : App) (fetched : List Todo) : App × Except JsError Unit :=
  setTodosApp { a with st := Model.state.subscribe a.st () } fetched

end Controller

/-- Helper: with a callback registered, a sequence of assignments yields one
invocation event per assignment, in order, each observing the value just
assigned; the registration is preserved throughout. -/
theorem runAssignments_spec {κ : Type} (ls : List (List Todo)) :
    ∀ (s : Model.state κ) (cb : κ), s.onChange = some cb →
      (Model.runAssignments s ls).2 = Except.ok (ls.map (fun x => (cb, x))) ∧
      (Model.runAssignments s ls).1.onChange = some cb := by
  induction ls with
  | nil => intro s cb h; exact ⟨rfl, h⟩
  | cons l ls ih =>
    intro s cb h
    obtain ⟨ih1, ih2⟩ := ih { todos := l, onChange := some cb } cb rfl
    simp only [Model.runAssignments, Model.state.setTodos, h]
    cases hr : Model.runAssignments
        ({ todos := l, onChange := some cb } : Model.state κ) ls with
    | mk s'' r =>
      rw [hr] at ih1 ih2
      cases r with
      | error e => simp at ih1
      | ok evs =>
        simp only [Except.ok.injEq] at ih1
        subst ih1
        exact ⟨rfl, ih2⟩

/-- C10: a freshly constructed state container has an empty collection: the
constructor initializes the private todo list to `[]`, and the getter returns
that list before any assignment. -/
theorem new_state_has_empty_todos (κ : Type) :
    (Model.state.new : Model.state κ).todos = [] :=
  rfl

/-- C1 counterexample: on a freshly constructed container with no callback
registered, an assignment to the collection does not succeed without error; it
replaces the list but then throws a TypeError from calling the undefined
callback. -/
theorem set_without_callback_throws_cex :
    ((Model.state.new : Model.state Unit).setTodos [⟨"1", "a"⟩]).2 =
      Except.error JsError.typeError ∧
    ((Model.state.new : Model.state Unit).setTodos [⟨"1", "a"⟩]).1.todos =
      [⟨"1", "a"⟩] :=
  ⟨rfl, rfl⟩

/-- C1 (amended): on a container with no registered callback, an assignment to
the collection replaces the in-memory list and then raises a TypeError from
invoking the missing callback; the data replacement itself is the only other
observable effect. -/
theorem set_without_callback_replaces_then_throws (κ : Type)
    (s : Model.state κ) (h : s.onChange = none) (l : List Todo) :
    Model.state.setTodos s l =
      ({ todos := l, onChange := none }, Except.error JsError.typeError) := by
  obtain ⟨todos, oc⟩ := s
  simp only at h
  subst h
  rfl

/-- Witness for the amended C1 at a concrete container and list. -/
theorem set_without_callback_replaces_then_throws_witness :
    (Model.state.new : Model.state Unit).onChange = none ∧
    Model.state.setTodos (Model.state.new : Model.state Unit) [⟨"1", "a"⟩] =
      ({ todos := [⟨"1", "a"⟩], onChange := none },
       Except.error JsError.typeError) :=
  ⟨rfl, set_without_callback_replaces_then_throws Unit Model.state.new rfl
    [⟨"1", "a"⟩]⟩

/-- C2 counterexample: a non-2xx response whose body is valid JSON resolves
successfully: `getTodos` on a 404 response with body `[]` resolves to `[]`,
so a non-2xx status does not prevent successful resolution. -/
theorem non2xx_resolves_cex :
    ¬ APIs.isSuccessStatus 404 ∧
    APIs.getTodos (FetchOutcome.response 404 (some (Json.arr []))) =
      Except.ok (Json.arr []) :=
  ⟨by decide, rfl⟩

/-- C2 (amended): each of the three API calls resolves to the parsed JSON body
whenever the transport delivers a response whose body is valid JSON, whatever
the HTTP status (2xx or not); it fails with a NetworkError exactly on
transport failure and with a parse error exactly on a malformed body; the
status is never inspected, so a non-2xx status alone never causes failure. -/
theorem api_results_ignore_status (outcome : FetchOutcome) (p : CreatePayload)
    (id : String) :
    (∀ status j, outcome = FetchOutcome.response status (some j) →
      APIs.getTodos outcome = Except.ok j ∧
      APIs.createTodo p outcome = Except.ok j ∧
      APIs.deleteTodo id outcome = Except.ok j) ∧
    (outcome = FetchOutcome.networkError →
      APIs.getTodos outcome = Except.error JsError.networkError ∧
      APIs.createTodo p outcome = Except.error JsError.networkError ∧
      APIs.deleteTodo id outcome = Except.error JsError.networkError) ∧
    (∀ status, outcome = FetchOutcome.response status none →
      APIs.getTodos outcome = Except.error JsError.parseError ∧
      APIs.createTodo p outcome = Except.error JsError.parseError ∧
      APIs.deleteTodo id outcome = Except.error JsError.parseError) := by
  refine ⟨fun status j h => ?_, fun h => ?_, fun status h => ?_⟩ <;>
    subst h <;> exact ⟨rfl, rfl, rfl⟩

/-- Witness for the amended C2: a 404 response carrying valid JSON makes all
three calls resolve to the parsed body. -/
theorem api_results_ignore_status_witness :
    FetchOutcome.response 404 (some (Json.arr [])) =
      FetchOutcome.response 404 (some (Json.arr [])) ∧
    APIs.createTodo ⟨"x"⟩ (FetchOutcome.response 404 (some (Json.arr []))) =
      Except.ok (Json.arr []) :=
  ⟨rfl,
   ((api_results_ignore_status (FetchOutcome.response 404 (some (Json.arr [])))
      ⟨"x"⟩ "7").1 404 (Json.arr []) rfl).2.1⟩

/-- C3: with a callback registered, every assignment to the collection invokes
the callback exactly once, synchronously within the assignment, after the list
has been replaced, and the collection the callback observes is exactly the
just-assigned value; over any sequence of assignments the event log has one
entry per assignment, in order. -/
theorem setter_invokes_callback_once (κ : Type) (s : Model.state κ) (cb : κ)
    (h : s.onChange = some cb) (l : List Todo) (ls : List (List Todo)) :
    (Model.state.setTodos s l).1.todos = l ∧
    (Model.state.setTodos s l).2 = Except.ok [(cb, l)] ∧
    (Model.runAssignments s ls).2 = Except.ok (ls.map (fun x => (cb, x))) := by
  refine ⟨?_, ?_, (runAssignments_spec ls s cb h).1⟩ <;>
    simp [Model.state.setTodos, h]

/-- Witness for C3 on a concrete subscribed container and a two-assignment
sequence. -/
theorem setter_invokes_callback_once_witness :
    (Model.state.subscribe (Model.state.new : Model.state Unit) ()).onChange =
      some () ∧
    (Model.runAssignments
        (Model.state.subscribe (Model.state.new : Model.state Unit) ())
        [[⟨"1", "a"⟩], []]).2 =
      Except.ok ([[(⟨"1", "a"⟩ : Todo)], []].map (fun x => ((), x))) :=
  ⟨rfl,
   (setter_invokes_callback_once Unit
      (Model.state.subscribe Model.state.new ()) () rfl []
      [[⟨"1", "a"⟩], []]).2.2⟩

/-- C7: subscribing callback `f` and then callback `g` leaves exactly one
active callback, namely `g`: a subsequent assignment produces exactly one
invocation event, tagged `g`, and no event is tagged `f`. -/
theorem subscribe_replaces_previous (κ : Type) (s : Model.state κ) (f g : κ)
    (l : List Todo) (hfg : f ≠ g) :
    ((s.subscribe f).subscribe g).onChange = some g ∧
    (((s.subscribe f).subscribe g).setTodos l).2 = Except.ok [(g, l)] ∧
    ∀ p ∈ [((g : κ), l)], p.1 ≠ f := by
  refine ⟨rfl, by simp [Model.state.setTodos, Model.state.subscribe], ?_⟩
  intro p hp
  rw [List.mem_singleton] at hp
  subst hp
  exact Ne.symm hfg

/-- Witness for C7 with two distinct concrete callbacks. -/
theorem subscribe_replaces_previous_witness :
    (0 : Nat) ≠ 1 ∧
    (((Model.state.new : Model.state Nat).subscribe 0).subscribe 1).onChange =
      some 1 :=
  ⟨by decide,
   (subscribe_replaces_previous Nat Model.state.new 0 1 [] (by decide)).1⟩

/-- C4: with the render callback registered (as `init` arranges), an add-button
click sends `createTodo` the payload whose content is the input field's value
verbatim (the empty string included), and on resolution with item `t` the new
collection is the previous collection with `t` appended, the container is
re-rendered from it, and the input field reads the empty string. -/
theorem add_flow_appends_and_clears (a : Controller.App)
    (h : a.st.onChange = some ()) (t : Todo) :
    Controller.addClick a t =
      (Controller.ApiCall.createTodoCall ⟨a.view.inputValue⟩,
       { st := { todos := a.st.todos ++ [t], onChange := some () },
         view := { inputValue := "",
                   container := View.renderTodos (a.st.todos ++ [t]) } },
       Except.ok ()) := by
  obtain ⟨⟨todos, oc⟩, inp, cont⟩ := a
  simp only at h
  subst h
  rfl

/-- Witness for C4: from collection `[]` and input "Buy milk", the flow posts
content "Buy milk" and ends with the created item appended and the input
cleared. -/
theorem add_flow_appends_and_clears_witness :
    ({ st := { todos := [], onChange := some () },
       view := { inputValue := "Buy milk", container := [] } } :
        Controller.App).st.onChange = some () ∧
    Controller.addClick
        { st := { todos := [], onChange := some () },
          view := { inputValue := "Buy milk", container := [] } }
        ⟨"42", "Buy milk"⟩ =
      (Controller.ApiCall.createTodoCall ⟨"Buy milk"⟩,
       { st := { todos := [⟨"42", "Buy milk"⟩], onChange := some () },
         view := { inputValue := "",
                   container := View.renderTodos [⟨"42", "Buy milk"⟩] } },
       Except.ok ()) :=
  ⟨rfl,
   add_flow_appends_and_clears
     { st := { todos := [], onChange := some () },
       view := { inputValue := "Buy milk", container := [] } }
     rfl ⟨"42", "Buy milk"⟩⟩

/-- C5: with the render callback registered, a click on a delete control inside
the block whose element identifier is `id` issues `deleteTodo id` and then
`getTodos`, and the final collection is exactly the refetched list `l2` (a full
re-fetch, not a local removal from the previous collection). -/
theorem delete_flow_full_refetch (a : Controller.App)
    (el : Controller.DomElement) (h : a.st.onChange = some ())
    (hc : el.className = "todo_delete-btn") (j : Json) (l2 : List Todo) :
    Controller.todolistClick a el j l2 =
      ([Controller.ApiCall.deleteTodoCall el.parentId,
        Controller.ApiCall.getTodosCall],
       { st := { todos := l2, onChange := some () },
         view := { inputValue := a.view.inputValue,
                   container := View.renderTodos l2 } },
       Except.ok ()) := by
  obtain ⟨⟨todos, oc⟩, inp, cont⟩ := a
  simp only at h
  subst h
  simp [Controller.todolistClick, hc, Controller.setTodosApp,
        Model.state.setTodos, Controller.applyEvents]

/-- Witness for C5: deleting id "42" from collection `[42, 7]` with the server
refetch returning `[9]` ends with collection `[9]`, not with a locally spliced
`[7]`. -/
theorem delete_flow_full_refetch_witness :
    ({ st := { todos := [⟨"42", "a"⟩, ⟨"7", "b"⟩], onChange := some () },
       view := { inputValue := "", container := [] } } :
        Controller.App).st.onChange = some () ∧
    (⟨"todo_delete-btn", "42"⟩ : Controller.DomElement).className =
      "todo_delete-btn" ∧
    Controller.todolistClick
        { st := { todos := [⟨"42", "a"⟩, ⟨"7", "b"⟩], onChange := some () },
          view := { inputValue := "", container := [] } }
        ⟨"todo_delete-btn", "42"⟩ Json.null [⟨"9", "c"⟩] =
      ([Controller.ApiCall.deleteTodoCall "42",
        Controller.ApiCall.getTodosCall],
       { st := { todos := [⟨"9", "c"⟩], onChange := some () },
         view := { inputValue := "",
                   container := View.renderTodos [⟨"9", "c"⟩] } },
       Except.ok ()) :=
  ⟨rfl, rfl,
   delete_flow_full_refetch
     { st := { todos := [⟨"42", "a"⟩, ⟨"7", "b"⟩], onChange := some () },
       view := { inputValue := "", container := [] } }
     ⟨"todo_delete-btn", "42"⟩ rfl rfl Json.null [⟨"9", "c"⟩]⟩

/-- C6: after `init` resolves the initial fetch to `l`, the container contents
are exactly `renderTodos l`; and `renderTodos l` consists of exactly one block
per item, in order, each carrying the item's id as its element identifier, the
item's content as text, and one delete control. -/
theorem render_one_block_per_item (a : Controller.App) (l : List Todo) :
    (Controller.init a l).1.view.container = View.renderTodos l ∧
    (View.renderTodos l).length = l.length ∧
    (∀ i (h1 : i < (View.renderTodos l).length) (h2 : i < l.length),
      (View.renderTodos l).get ⟨i, h1⟩ =
        { elemId := (l.get ⟨i, h2⟩).id, text := (l.get ⟨i, h2⟩).content,
          deleteControls := 1 }) := by
  refine ⟨?_, by simp [View.renderTodos], ?_⟩
  · obtain ⟨⟨todos, oc⟩, inp, cont⟩ := a
    rfl
  · intro i h1 h2
    simp [View.renderTodos, View.todoItemTemp, List.get_eq_getElem]

/-- Witness for C6: a one-item list renders as one block keyed by the item's
id. -/
theorem render_one_block_per_item_witness :
    0 < (View.renderTodos [(⟨"1", "a"⟩ : Todo)]).length ∧
    0 < ([(⟨"1", "a"⟩ : Todo)]).length ∧
    (View.renderTodos [(⟨"1", "a"⟩ : Todo)]).get ⟨0, by decide⟩ =
      { elemId := "1", text := "a", deleteControls := 1 } :=
  ⟨by decide, by decide,
   (render_one_block_per_item
      { st := Model.state.new, view := { inputValue := "", container := [] } }
      [⟨"1", "a"⟩]).2.2 0 (by decide) (by decide)⟩

/-- C8: a click inside the list container on an element whose class is not the
delete-button class issues no remote call and leaves the application state,
collection included, unchanged. -/
theorem non_delete_click_noop (a : Controller.App)
    (el : Controller.DomElement) (j : Json) (l : List Todo)
    (h : ¬ el.className = "todo_delete-btn") :
    Controller.todolistClick a el j l = ([], a, Except.ok ()) := by
  simp [Controller.todolistClick, h]

/-- Witness for C8: a click on a plain element of class "todo-item" does
nothing. -/
theorem non_delete_click_noop_witness :
    ¬ (⟨"todo-item", "42"⟩ : Controller.DomElement).className =
        "todo_delete-btn" ∧
    Controller.todolistClick
        { st := Model.state.new,
          view := { inputValue := "", container := [] } }
        ⟨"todo-item", "42"⟩ Json.null [] =
      ([],
       { st := Model.state.new,
         view := { inputValue := "", container := [] } },
       Except.ok ()) :=
  ⟨by decide,
   non_delete_click_noop
     { st := Model.state.new, view := { inputValue := "", container := [] } }
     ⟨"todo-item", "42"⟩ Json.null [] (by decide)⟩

/-- C9: `deleteTodo` resolves for every JSON confirmation payload the server
returns, whatever its status or content, and the delete flow's outcome is
completely independent of that payload: the continuation discards the resolved
body and treats resolution itself as success. -/
theorem delete_confirmation_discarded :
    (∀ (id : String) (status : Nat) (j : Json),
      APIs.deleteTodo id (FetchOutcome.response status (some j)) =
        Except.ok j) ∧
    (∀ (a : Controller.App) (el : Controller.DomElement) (j j' : Json)
      (l : List Todo),
      Controller.todolistClick a el j l = Controller.todolistClick a el j' l) :=
  ⟨fun _ _ _ => rfl, fun _ _ _ _ _ => rfl⟩
